import Mathlib

/-!
Verification of the Prism application/window/renderer scaffold.

The definitions below are a shallow embedding of the C++ sources:
  - `src/src/window.cpp`   (Window::render, frameRender, framePresent, constructor)
  - `src/src/prism.cpp`    (Application::run, stop, cullClosedWindowsExitOnMainDeath)
  - `src/src/renderer.cpp` (Renderer::CheckVkResult)
External Vulkan calls are modelled by an oracle supplying each call's
VkResult status code (an `Int`, negative codes are fatal) and the image
index written by `vkAcquireNextImageKHR`.  Effects visible to the claims
(acquire, fence wait, deferred frees, submit, present, sleep) are recorded
as an event trace.  `Except` distinguishes normal completion, the
`abort()` inside `Renderer::CheckVkResult`, and out-of-bounds vector
subscripts (undefined behavior in the C++).
-/

namespace Prism

/-- VkResult codes used by the frame protocol (values from vulkan_core.h). -/
def VK_SUBOPTIMAL_KHR : Int := 1000001003

/-- VkResult code for a swapchain that can no longer present. -/
def VK_ERROR_OUT_OF_DATE_KHR : Int := -1000001004

/-- The two recoverable staleness codes recognised by frameRender/framePresent:
`err == VK_ERROR_OUT_OF_DATE_KHR || err == VK_SUBOPTIMAL_KHR`. -/
def isStale (err : Int) : Bool :=
  err == VK_ERROR_OUT_OF_DATE_KHR || err == VK_SUBOPTIMAL_KHR

/-- `Renderer::CheckVkResult`: code 0 is success, positive codes are logged and
execution continues, negative codes call `abort()` (modelled as `none`). -/
def CheckVkResult (result : Int) : Option Unit :=
  if result < 0 then none else some ()

/-- Observable effects of one window tick, recorded in program order. -/
inductive Event
  | acquire
  | waitFence (slot : Nat)
  | resetFence (slot : Nat)
  | freeAction (slot : Nat) (action : Nat)
  | clearQueue (slot : Nat)
  | freeCmdBufs (slot : Nat)
  | resetPool (slot : Nat)
  | submitCmd (slot : Nat)
  | presentAttempt
  | presented
  | sleepTick
  deriving DecidableEq, Repr

/-- How a modelled call can fail to return normally. -/
inductive Outcome
  | aborted   -- CheckVkResult saw a negative VkResult and called abort()
  | ub        -- out-of-bounds vector subscript (undefined behavior in C++)
  deriving DecidableEq, Repr

/-- The Window fields the frame protocol reads and writes
(`src/include/prism/window.h` plus the ImGui_ImplVulkanH_Window fields
FrameIndex, SemaphoreIndex, SemaphoreCount, ImageCount used by window.cpp).
Deferred-free actions and command buffers are identified by `Nat` tags. -/
structure WindowState where
  minImageCount : Nat
  swapchainNeedRebuild : Bool
  resourceFreeQueue : List (List Nat)
  allocatedCommandBuffers : List (List Nat)
  frameIndex : Nat
  semaphoreIndex : Nat
  semaphoreCount : Nat
  imageCount : Nat
  deriving DecidableEq, Repr

/-- Status codes returned by the external Vulkan calls of one tick, and the
image index `vkAcquireNextImageKHR` writes into `imguiWindow->FrameIndex`.
The Vulkan contract guarantees `acquireIndex < imageCount` (the index names
one of the swapchain's images), nothing stronger. -/
structure VkOracle where
  acquireResult : Int
  acquireIndex : Nat
  waitFencesResult : Int
  resetFencesResult : Int
  resetCommandPoolResult : Int
  beginCmdResult : Int
  endCmdResult : Int
  submitResult : Int
  presentResult : Int
  deriving DecidableEq, Repr

/-- The effect of `vkAcquireNextImageKHR` on `imguiWindow->FrameIndex`: the
acquired image's index is stored whenever an image is acquired (also on
VK_SUBOPTIMAL_KHR, a success code); on VK_ERROR_OUT_OF_DATE_KHR no image is
acquired and the field is left alone. -/
def acquireUpdate (o : VkOracle) (s0 : WindowState) : WindowState :=
  if o.acquireResult = VK_ERROR_OUT_OF_DATE_KHR then s0
  else { s0 with frameIndex := o.acquireIndex }

/-- The post-acquire phase of `Window::frameRender`
(`src/src/window.cpp:416-477`), operating on the slot selected by the
acquired `FrameIndex`: wait for and reset the slot's fence
(`fd = &imguiWindow->Frames[FrameIndex]`, so `FrameIndex` must index the
`ImageCount`-sized `Frames` array), run and then clear the slot's
deferred-free queue, free the slot's spare command buffers if any, reset the
command pool, record the draw data, and submit.  Vector subscripts out of
range yield `Outcome.ub`; a negative status from any checked call aborts. -/
def frameRenderSlot (o : VkOracle) (s : WindowState) :
    Except Outcome (WindowState × List Event) :=
  if s.frameIndex < s.imageCount then
    if o.waitFencesResult < 0 then Except.error Outcome.aborted
    else if o.resetFencesResult < 0 then Except.error Outcome.aborted
    else
      match s.resourceFreeQueue.get? s.frameIndex with
      | none => Except.error Outcome.ub
      | some q =>
        match s.allocatedCommandBuffers.get? s.frameIndex with
        | none => Except.error Outcome.ub
        | some cmdBuf =>
          if o.resetCommandPoolResult < 0 then Except.error Outcome.aborted
          else if o.beginCmdResult < 0 then Except.error Outcome.aborted
          else if o.endCmdResult < 0 then Except.error Outcome.aborted
          else if o.submitResult < 0 then Except.error Outcome.aborted
          else
            Except.ok
              ((if cmdBuf.isEmpty then
                  { s with resourceFreeQueue := s.resourceFreeQueue.set s.frameIndex [] }
                else
                  { s with
                    resourceFreeQueue := s.resourceFreeQueue.set s.frameIndex []
                    allocatedCommandBuffers :=
                      s.allocatedCommandBuffers.set s.frameIndex [] }),
                [Event.waitFence s.frameIndex, Event.resetFence s.frameIndex]
                  ++ q.map (fun a => Event.freeAction s.frameIndex a)
                  ++ [Event.clearQueue s.frameIndex]
                  ++ (if cmdBuf.isEmpty then [] else [Event.freeCmdBufs s.frameIndex])
                  ++ [Event.resetPool s.frameIndex, Event.submitCmd s.frameIndex])
  else Except.error Outcome.ub

/-- `Window::frameRender` (`src/src/window.cpp:398-477`): read the two
semaphores of slot `SemaphoreIndex`, acquire (early return with
`swapchainNeedRebuild = true` on staleness, abort on other negative codes),
then run the slot phase `frameRenderSlot` on the acquired slot. -/
def frameRender (o : VkOracle) (s0 : WindowState) :
    Except Outcome (WindowState × List Event) :=
  if s0.semaphoreIndex < s0.semaphoreCount then
    if isStale o.acquireResult then
      Except.ok ({ acquireUpdate o s0 with swapchainNeedRebuild := true },
        [Event.acquire])
    else if o.acquireResult < 0 then
      Except.error Outcome.aborted
    else
      match frameRenderSlot o (acquireUpdate o s0) with
      | Except.error e => Except.error e
      | Except.ok (s1, tr) => Except.ok (s1, Event.acquire :: tr)
  else Except.error Outcome.ub

/-- `Window::framePresent` (`src/src/window.cpp:479-502`): return at once if a
rebuild is pending; otherwise present, set the rebuild flag and return on
staleness, abort on other negative codes, else advance `SemaphoreIndex`
modulo `SemaphoreCount`. -/
def framePresent (o : VkOracle) (s : WindowState) :
    Except Outcome (WindowState × List Event) :=
  if s.swapchainNeedRebuild then
    Except.ok (s, [])
  else if s.semaphoreIndex < s.semaphoreCount then
    let err := o.presentResult
    if isStale err then
      Except.ok ({ s with swapchainNeedRebuild := true }, [Event.presentAttempt])
    else if err < 0 then
      Except.error Outcome.aborted
    else
      Except.ok ({ s with
          semaphoreIndex := (s.semaphoreIndex + 1) % s.semaphoreCount },
        [Event.presentAttempt, Event.presented])
  else Except.error Outcome.ub

/-- `Window::renderAndPresent` (`src/src/window.cpp:241-245`). -/
def renderAndPresent (o : VkOracle) (s : WindowState) :
    Except Outcome (WindowState × List Event) :=
  match frameRender o s with
  | Except.error e => Except.error e
  | Except.ok (s1, tr1) =>
    match framePresent o s1 with
    | Except.error e => Except.error e
    | Except.ok (s2, tr2) => Except.ok (s2, tr1 ++ tr2)

/-- `Window::render` (`src/src/window.cpp:201-239`): back up the current ImGui
context (identified by a `Nat`; `none` = no context current), make this
window's context current, build the frame, then either render-and-present or
— when the draw data's display size is degenerate — sleep for 5 ms.  Finally
restore the backup only when it was non-null (`if (backupContext) ...`). -/
def render (cur : Option Nat) (imguiContext : Nat) (dispW dispH : Nat)
    (o : VkOracle) (s : WindowState) :
    Except Outcome (Option Nat × WindowState × List Event) :=
  match (if 0 < dispW ∧ 0 < dispH then renderAndPresent o s
         else Except.ok (s, [Event.sleepTick])) with
  | Except.error e => Except.error e
  | Except.ok (s1, tr) =>
    -- if (backupContext) ImGui::SetCurrentContext(backupContext);
    Except.ok
      ((match cur with
        | some c => some c
        | none => some imguiContext), s1, tr)

/-- The per-frame vectors as set up by the `Window` constructor
(`src/src/window.cpp:95-97`): both `allocatedCommandBuffers` and
`resourceFreeQueue` are resized to `minImageCount`, which is fixed at 2 in
`window.h:65`; the swapchain's actual image and semaphore counts are chosen
by the driver/ImGui helper. -/
def windowInit (imageCount semaphoreCount : Nat) : WindowState :=
  let minImageCount := 2
  { minImageCount := minImageCount
    swapchainNeedRebuild := false
    resourceFreeQueue := List.replicate minImageCount []
    allocatedCommandBuffers := List.replicate minImageCount []
    frameIndex := 0
    semaphoreIndex := 0
    semaphoreCount := semaphoreCount
    imageCount := imageCount }

/-- Oracle where every Vulkan call succeeds with code 0 and acquire yields
image index 0. -/
def zeroOracle : VkOracle :=
  { acquireResult := 0, acquireIndex := 0, waitFencesResult := 0
    resetFencesResult := 0, resetCommandPoolResult := 0, beginCmdResult := 0
    endCmdResult := 0, submitResult := 0, presentResult := 0 }

/-- Oracle whose acquire reports VK_SUBOPTIMAL_KHR. -/
def staleAcquireOracle : VkOracle :=
  { zeroOracle with acquireResult := VK_SUBOPTIMAL_KHR }

/-- Oracle whose present reports VK_ERROR_OUT_OF_DATE_KHR. -/
def stalePresentOracle : VkOracle :=
  { zeroOracle with presentResult := VK_ERROR_OUT_OF_DATE_KHR }

/-- The deferred-free events of a trace, in order. -/
def freeEvents (tr : List Event) : List (Nat × Nat) :=
  tr.filterMap fun e =>
    match e with
    | Event.freeAction i a => some (i, a)
    | _ => none

/-- A window as the application loop sees it: an identity and the value its
`shouldClose()` (= `glfwWindowShouldClose`) reports this tick. -/
structure Win where
  id : Nat
  closeReq : Bool
  deriving DecidableEq, Repr

/-- The Application fields the loop touches (`src/include/prism/prism.h:22-25`). -/
structure App where
  running : Bool
  appWindows : List Win
  deriving DecidableEq, Repr

/-- The loop body of `Application::cullClosedWindowsExitOnMainDeath`
(`src/src/prism.cpp:59-73`):
`for (size_t i = 0; i < appWindows.size(); i++)` testing `shouldClose()`;
index 0 stops the application and breaks, any other index is erased from the
vector and the loop continues with `i+1`.  The structural `fuel` argument
counts remaining loop iterations; `appWindows.size()` iterations always
suffice because `size - i` shrinks every iteration. -/
def cullFromFuel : Nat → Nat → App → App
  | 0, _, a => a
  | fuel + 1, i, a =>
    match a.appWindows.get? i with
    | none => a
    | some w =>
      if w.closeReq then
        if i = 0 then
          { a with running := false }
        else
          cullFromFuel fuel (i + 1) { a with appWindows := a.appWindows.eraseIdx i }
      else cullFromFuel fuel (i + 1) a

/-- `Application::cullClosedWindowsExitOnMainDeath` (`src/src/prism.cpp:59-73`). -/
def cullClosedWindowsExitOnMainDeath (a : App) : App :=
  cullFromFuel a.appWindows.length 0 a

/-- Loop-level effects of one iteration of `Application::run`. -/
inductive LoopEvent
  | pollEvents
  | renderWindow (id : Nat)
  deriving DecidableEq, Repr

/-- One iteration of the `while (running)` body of `Application::run`
(`src/src/prism.cpp:36-44`): poll platform events, cull closed windows, then
render every window remaining in the registry, in registry order.  Window
`render` calls are recorded as events; ticks in which application hooks
mutate the registry mid-iteration are treated by `renderLoopAux` below. -/
def tick (a : App) : App × List LoopEvent :=
  let a1 := cullClosedWindowsExitOnMainDeath a
  (a1, LoopEvent.pollEvents :: a1.appWindows.map (fun w => LoopEvent.renderWindow w.id))

/-- `Application::run` (`src/src/prism.cpp:33-45`): return at once when not
running, otherwise iterate `tick` while `running` holds.  `fuel` bounds the
number of iterations observed (the real loop may run forever). -/
def runFuel : Nat → App → App × List LoopEvent
  | 0, a => (a, [])
  | n + 1, a =>
    if a.running then
      let p := tick a
      let q := runFuel n p.1
      (q.1, p.2 ++ q.2)
    else (a, [])

/-- The state-mutating operations of `Application`'s public interface:
`stop()` (`prism.cpp:47-50`), `addWindow` (`prism.h:68-75`, an
`emplace_back`), and `run` with a given iteration budget. -/
inductive AppOp
  | stopOp
  | addWindowOp (w : Win)
  | runOp (fuel : Nat)
  deriving DecidableEq, Repr

/-- Apply one Application operation. -/
def applyOp : AppOp → App → App
  | AppOp.stopOp, a => { a with running := false }
  | AppOp.addWindowOp w, a => { a with appWindows := a.appWindows ++ [w] }
  | AppOp.runOp n, a => (runFuel n a).1

/-- Apply a sequence of Application operations, oldest first. -/
def applyOps (ops : List AppOp) (a : App) : App :=
  ops.foldl (fun acc op => applyOp op acc) a

/-- One cull pass over the windows at indices ≥ 1, as the erase-and-increment
loop of `cullClosedWindowsExitOnMainDeath` actually behaves: a scanned
close-requesting window is erased, but erasing slides the next window into
the erased slot and the `i++` then skips it, so that window survives this
pass unexamined. -/
def sweep : List Win → List Win
  | [] => []
  | w :: ws =>
    if w.closeReq then
      match ws with
      | [] => []
      | v :: vs => v :: sweep vs
    else w :: sweep ws

/-- A `std::vector` buffer as the range-for iteration protocol sees it:
contents, capacity, and a buffer identity `ver` that changes whenever
`emplace_back` reallocates, invalidating outstanding iterators. -/
structure VecBuf where
  elems : List Nat
  cap : Nat
  ver : Nat
  deriving DecidableEq, Repr

/-- `std::vector::emplace_back`: append in place while below capacity,
otherwise reallocate (grow capacity, new buffer identity). -/
def emplaceBack (v : VecBuf) (x : Nat) : VecBuf :=
  if v.elems.length < v.cap then { v with elems := v.elems ++ [x] }
  else { elems := v.elems ++ [x], cap := 2 * v.cap + 1, ver := v.ver + 1 }

/-- Result of running the render loop of `Application::run`. -/
inductive LoopResult
  | finished (v : VecBuf)
  | invalidated
  deriving DecidableEq, Repr

/-- The range-for `for (auto& window : appWindows) window->render();`
(`src/src/prism.cpp:42-43`) at the C++ iterator level: `begin`/`end` are
captured once from the buffer current at loop entry (`startVer`;
`remaining` = captured end minus current position, `i` the position).  Each
step first compares/dereferences the captured iterators — valid only while
the buffer has not been reallocated — then runs the window's `render`, in
which application logic may call `Application::addWindow` (the `spawns`
function says which window id, if any, a window's hooks add). -/
def renderLoopAux (spawns : Nat → Option Nat) (startVer : Nat) :
    Nat → Nat → VecBuf → LoopResult
  | remaining, i, v =>
    if v.ver ≠ startVer then LoopResult.invalidated
    else
      match remaining with
      | 0 => LoopResult.finished v
      | r + 1 =>
        match v.elems.get? i with
        | none => LoopResult.invalidated
        | some w =>
          let v1 :=
            match spawns w with
            | some x => emplaceBack v x
            | none => v
          renderLoopAux spawns startVer r (i + 1) v1

/-- The whole render loop of one tick over the live window vector. -/
def renderLoop (spawns : Nat → Option Nat) (v : VecBuf) : LoopResult :=
  renderLoopAux spawns v.ver v.elems.length 0 v

/-- Modelled from the spec: the iteration the specification asks for —
"iterating over a snapshot of the registry taken at the start of the tick" —
which runs every window's hooks against a copy of the registry and so can
never be invalidated by `addWindow`. -/
def renderLoopSnapshot (spawns : Nat → Option Nat) (v : VecBuf) : VecBuf :=
  v.elems.foldl
    (fun acc w =>
      match spawns w with
      | some x => emplaceBack acc x
      | none => acc) v

/-- Example registry used by the cull counterexample: the primary window open,
the two non-primary windows both requesting close in the same tick. -/
def exCullApp : App :=
  { running := true, appWindows := [⟨0, false⟩, ⟨1, true⟩, ⟨2, true⟩] }

/-- Oracle whose successful acquire yields image index 2. -/
def oobOracle : VkOracle := { zeroOracle with acquireIndex := 2 }

/-- A freshly constructed window state carrying two pending deferred-free
actions (tags 10 and 11) in slot 0 and one (tag 20) in slot 1. -/
def c4State : WindowState :=
  { windowInit 2 3 with resourceFreeQueue := [[10, 11], [20]] }

/-! ### Helper lemmas -/

theorem eraseIdx_append_length (pre vs : List Win) (v : Win) :
    (pre ++ v :: vs).eraseIdx pre.length = pre ++ vs := by
  induction pre with
  | nil => rfl
  | cons p ps ih => simp [List.eraseIdx, ih]

theorem getElem_append_length (pre vs : List Win) (v : Win)
    (h : pre.length < (pre ++ v :: vs).length) :
    (pre ++ v :: vs)[pre.length] = v := by
  induction pre with
  | nil => simp
  | cons p ps ih => simpa using ih (by simpa using h)

theorem cullFromFuel_out (fuel i : Nat) (a : App) (h : a.appWindows.length ≤ i) :
    cullFromFuel fuel i a = a := by
  cases fuel with
  | zero => rfl
  | succ f =>
    rw [cullFromFuel.eq_def]
    simp [List.getElem?_eq_none h]

/-- From index ≥ 1 on, the cull loop performs exactly the `sweep` pass on the
windows not yet scanned: `pre` holds the windows at indices below the cursor. -/
theorem cullFromFuel_append (r : Bool) (pre rest : List Win) (fuel : Nat)
    (hpre : pre ≠ []) (hfuel : rest.length ≤ fuel) :
    cullFromFuel fuel pre.length { running := r, appWindows := pre ++ rest } =
      { running := r, appWindows := pre ++ sweep rest } := by
  match rest, fuel with
  | [], fuel =>
    rw [cullFromFuel_out fuel pre.length _ (by simp)]
    simp [show sweep [] = [] from rfl]
  | v :: vs, 0 => exact absurd hfuel (by simp)
  | v :: vs, fuel + 1 =>
    rw [cullFromFuel.eq_def]
    cases hv : v.closeReq with
    | true =>
      simp [getElem_append_length, hv, hpre, eraseIdx_append_length]
      match vs with
      | [] =>
        rw [cullFromFuel_out fuel (pre.length + 1) _ (by simp)]
        conv_rhs => rw [sweep.eq_def]
        simp [hv]
      | u :: us =>
        have key := cullFromFuel_append r (pre ++ [u]) us fuel (by simp)
          (by simp at hfuel ⊢; omega)
        simp only [List.length_append, List.length_cons, List.length_nil,
          List.append_assoc, List.cons_append, List.nil_append,
          Nat.zero_add] at key
        rw [key]
        conv_rhs => rw [sweep.eq_def]
        simp [hv]
    | false =>
      simp [getElem_append_length, hv]
      have key := cullFromFuel_append r (pre ++ [v]) vs fuel (by simp)
        (by simp at hfuel ⊢; omega)
      simp only [List.length_append, List.length_cons, List.length_nil,
        List.append_assoc, List.cons_append, List.nil_append,
        Nat.zero_add] at key
      rw [key]
      conv_rhs => rw [sweep.eq_def]
      simp [hv]
termination_by rest.length

/-- The windows surviving one sweep pass are a subsequence of the originals:
the pass only removes windows, never reorders or invents them. -/
theorem sweep_sublist (l : List Win) : (sweep l).Sublist l := by
  match l with
  | [] => simp [show sweep [] = [] from rfl]
  | [w] =>
    rw [sweep.eq_def]
    cases hw : w.closeReq <;> simp [hw, show sweep [] = [] from rfl]
  | w :: v :: vs =>
    rw [sweep.eq_def]
    cases hw : w.closeReq with
    | true =>
      simp only [hw, if_true]
      exact List.Sublist.cons w (List.Sublist.cons₂ v (sweep_sublist vs))
    | false =>
      simp only [hw, if_false]
      exact List.Sublist.cons₂ w (sweep_sublist (v :: vs))
termination_by l.length

/-- A window that does not request close always survives a sweep pass. -/
theorem mem_sweep_of_not_closeReq (l : List Win) (v : Win)
    (hv : v ∈ l) (hnc : v.closeReq = false) : v ∈ sweep l := by
  match l with
  | [] => cases hv
  | w :: ws =>
    rw [sweep.eq_def]
    cases hw : w.closeReq with
    | false =>
      simp only [hw, if_false]
      rcases List.mem_cons.mp hv with h | h
      · exact h ▸ List.mem_cons_self _ _
      · exact List.mem_cons_of_mem _ (mem_sweep_of_not_closeReq ws v h hnc)
    | true =>
      simp only [hw, if_true]
      match ws with
      | [] =>
        rcases List.mem_cons.mp hv with h | h
        · rw [h] at hnc; rw [hw] at hnc; cases hnc
        · cases h
      | u :: us =>
        rcases List.mem_cons.mp hv with h | h
        · rw [h] at hnc; rw [hw] at hnc; cases hnc
        · rcases List.mem_cons.mp h with h2 | h2
          · exact h2 ▸ List.mem_cons_self _ _
          · exact List.mem_cons_of_mem _ (mem_sweep_of_not_closeReq us v h2 hnc)
termination_by l.length

theorem runFuel_stopped (n : Nat) (a : App) (h : a.running = false) :
    runFuel n a = (a, []) := by
  cases n with
  | zero => rfl
  | succ m => simp [runFuel, h]

theorem applyOp_stopped (op : AppOp) (a : App) (h : a.running = false) :
    (applyOp op a).running = false := by
  cases op with
  | stopOp => rfl
  | addWindowOp w => simpa [applyOp] using h
  | runOp n => simp [applyOp, runFuel_stopped n a h, h]

/-! ### Claim theorems -/

/-- C2: if the window at registry index 0 reports `shouldClose()` during the
cull phase, the application transitions to Stopped (`running = false`) within
that same tick, and no other window is removed from the registry during that
tick's cull. -/
theorem c2_primary_close_stops_same_tick (a : App) (w : Win) (ws : List Win)
    (hw : a.appWindows = w :: ws) (hc : w.closeReq = true) :
    (cullClosedWindowsExitOnMainDeath a).running = false ∧
    (cullClosedWindowsExitOnMainDeath a).appWindows = a.appWindows ∧
    (tick a).1.running = false := by
  obtain ⟨r, l⟩ := a
  simp only at hw
  subst hw
  simp [cullClosedWindowsExitOnMainDeath, cullFromFuel, tick, hc]

/-- C2 witness: one concrete tick with a closing primary window and one open
secondary window. -/
theorem c2_witness :
    (cullClosedWindowsExitOnMainDeath
        { running := true, appWindows := [⟨0, true⟩, ⟨1, false⟩] }).running = false ∧
    (cullClosedWindowsExitOnMainDeath
        { running := true, appWindows := [⟨0, true⟩, ⟨1, false⟩] }).appWindows
      = ({ running := true, appWindows := [⟨0, true⟩, ⟨1, false⟩] } : App).appWindows ∧
    (tick { running := true, appWindows := [⟨0, true⟩, ⟨1, false⟩] }).1.running = false :=
  c2_primary_close_stops_same_tick _ ⟨0, true⟩ [⟨1, false⟩] rfl rfl

/-- C3 counterexample: with the primary window open and BOTH non-primary
windows requesting close in the same tick, the cull erases window 1 but the
`i++` after the erase skips window 2 (which slid into index 1), so a
close-requesting non-primary window survives the tick — refuting the claim
that every close-requesting non-primary window is removed in that tick. -/
theorem c3_counterexample :
    (⟨0, false⟩ : Win).closeReq = false ∧
    exCullApp.appWindows.get? 2 = some ⟨2, true⟩ ∧
    (⟨2, true⟩ : Win).closeReq = true ∧
    (cullClosedWindowsExitOnMainDeath exCullApp).appWindows = [⟨0, false⟩, ⟨2, true⟩] ∧
    (⟨2, true⟩ : Win) ∈ (cullClosedWindowsExitOnMainDeath exCullApp).appWindows := by
  decide

/-- C3 (amended): when the primary window does not request close, the cull
leaves the Running state untouched and performs exactly one `sweep` pass over
the non-primary windows: each scanned close-requesting window is removed, but
the window sliding into an erased slot is skipped (surviving that tick even
if it requests close); the survivors keep their order, and every window not
requesting close survives. -/
theorem c3_cull_sweep_characterization (a : App) (w : Win) (ws : List Win)
    (hw : a.appWindows = w :: ws) (hnc : w.closeReq = false) :
    (cullClosedWindowsExitOnMainDeath a).running = a.running ∧
    (cullClosedWindowsExitOnMainDeath a).appWindows = w :: sweep ws ∧
    (cullClosedWindowsExitOnMainDeath a).appWindows.Sublist a.appWindows ∧
    (∀ v ∈ a.appWindows, v.closeReq = false →
      v ∈ (cullClosedWindowsExitOnMainDeath a).appWindows) := by
  obtain ⟨r, l⟩ := a
  simp only at hw
  subst hw
  have key : cullClosedWindowsExitOnMainDeath ⟨r, w :: ws⟩ = ⟨r, w :: sweep ws⟩ := by
    unfold cullClosedWindowsExitOnMainDeath
    have step := cullFromFuel_append r [w] ws ws.length (by simp) (le_refl _)
    simp only [List.length_cons, List.length_nil, List.cons_append,
      List.nil_append, Nat.zero_add] at step
    rw [show (w :: ws : List Win).length = ws.length + 1 from rfl]
    simp only [cullFromFuel, List.get?, hnc, if_false]
    exact step
  refine ⟨by rw [key], by rw [key], ?_, ?_⟩
  · rw [key]
    exact List.Sublist.cons₂ w (sweep_sublist ws)
  · intro v hv hvnc
    rw [key]
    rcases List.mem_cons.mp hv with h | h
    · exact h ▸ List.mem_cons_self _ _
    · exact List.mem_cons_of_mem _ (mem_sweep_of_not_closeReq ws v h hvnc)

/-- C3 witness: a tick with an open primary window and one closing secondary
window. -/
theorem c3_witness :
    (cullClosedWindowsExitOnMainDeath
        { running := true, appWindows := [⟨0, false⟩, ⟨1, true⟩] }).running
      = ({ running := true, appWindows := [⟨0, false⟩, ⟨1, true⟩] } : App).running ∧
    (cullClosedWindowsExitOnMainDeath
        { running := true, appWindows := [⟨0, false⟩, ⟨1, true⟩] }).appWindows
      = ⟨0, false⟩ :: sweep [⟨1, true⟩] ∧
    (cullClosedWindowsExitOnMainDeath
        { running := true, appWindows := [⟨0, false⟩, ⟨1, true⟩] }).appWindows.Sublist
      ({ running := true, appWindows := [⟨0, false⟩, ⟨1, true⟩] } : App).appWindows ∧
    (∀ v ∈ ({ running := true, appWindows := [⟨0, false⟩, ⟨1, true⟩] } : App).appWindows,
      v.closeReq = false →
      v ∈ (cullClosedWindowsExitOnMainDeath
        { running := true, appWindows := [⟨0, false⟩, ⟨1, true⟩] }).appWindows) :=
  c3_cull_sweep_characterization _ ⟨0, false⟩ [⟨1, true⟩] rfl rfl

/-- C7: the render loop iterates the LIVE `appWindows` vector.  When the only
window's `onUpdate`/`onRender` hooks call `Application::addWindow` while the
vector is at capacity, `emplace_back` reallocates the buffer and the loop's
captured iterators dangle (undefined behavior) — the code does NOT behave as
if iterating a snapshot, which would complete the tick with both windows. -/
theorem c7_live_iteration_invalidated :
    renderLoop (fun w => if w = 0 then some 7 else none)
      { elems := [0], cap := 1, ver := 0 } = LoopResult.invalidated ∧
    renderLoopSnapshot (fun w => if w = 0 then some 7 else none)
      { elems := [0], cap := 1, ver := 0 }
      = { elems := [0, 7], cap := 3, ver := 1 } := by
  decide

/-- C9: once `running = false`, no Application operation (stop, addWindow,
run) ever makes `running` true again, and calling `run` in that state
returns at once: no event poll, no cull, no window render. -/
theorem c9_stopped_is_terminal (a : App) (ops : List AppOp) (n : Nat)
    (h : a.running = false) :
    (applyOps ops a).running = false ∧ runFuel n a = (a, []) := by
  constructor
  · induction ops generalizing a with
    | nil => exact h
    | cons op rest ih => exact ih _ (applyOp_stopped op a h)
  · exact runFuel_stopped n a h

/-- C9 witness: a stopped application stays stopped across an addWindow, a
run with budget 5, and a stop, and a direct run with budget 4 does nothing. -/
theorem c9_witness :
    (applyOps [AppOp.addWindowOp ⟨1, false⟩, AppOp.runOp 5, AppOp.stopOp]
        { running := false, appWindows := [] }).running = false ∧
    runFuel 4 { running := false, appWindows := [] }
      = ({ running := false, appWindows := [] }, []) :=
  c9_stopped_is_terminal _ _ 4 rfl

/-- C10: the claim's bound fails.  `resourceFreeQueue` and
`allocatedCommandBuffers` are sized to `minImageCount` (2), but the driver
may create a swapchain with more images than the minimum (here 3), making
acquired index 2 reachable (`acquireIndex < imageCount` is all Vulkan
guarantees); indexing the size-2 vectors at 2 is out of bounds, and
`frameRender` hits undefined behavior on that tick. -/
theorem c10_frame_index_out_of_bounds :
    oobOracle.acquireIndex < (windowInit 3 4).imageCount ∧
    ¬ oobOracle.acquireIndex < (windowInit 3 4).resourceFreeQueue.length ∧
    ¬ oobOracle.acquireIndex < (windowInit 3 4).allocatedCommandBuffers.length ∧
    frameRender oobOracle (windowInit 3 4) = Except.error Outcome.ub := by
  refine ⟨by decide, by decide, by decide, ?_⟩
  rfl

/-! ### Frame-protocol helper lemmas -/

/-- The inlined `err < 0` aborts in the frame functions agree with
`Renderer::CheckVkResult`: it aborts exactly on negative status codes. -/
theorem CheckVkResult_none_iff (result : Int) :
    CheckVkResult result = none ↔ result < 0 := by
  unfold CheckVkResult
  split <;> simp_all

theorem acquireUpdate_semaphoreIndex (o : VkOracle) (s : WindowState) :
    (acquireUpdate o s).semaphoreIndex = s.semaphoreIndex := by
  unfold acquireUpdate; split <;> rfl

theorem acquireUpdate_semaphoreCount (o : VkOracle) (s : WindowState) :
    (acquireUpdate o s).semaphoreCount = s.semaphoreCount := by
  unfold acquireUpdate; split <;> rfl

theorem acquireUpdate_imageCount (o : VkOracle) (s : WindowState) :
    (acquireUpdate o s).imageCount = s.imageCount := by
  unfold acquireUpdate; split <;> rfl

theorem acquireUpdate_resourceFreeQueue (o : VkOracle) (s : WindowState) :
    (acquireUpdate o s).resourceFreeQueue = s.resourceFreeQueue := by
  unfold acquireUpdate; split <;> rfl

theorem acquireUpdate_allocatedCommandBuffers (o : VkOracle) (s : WindowState) :
    (acquireUpdate o s).allocatedCommandBuffers = s.allocatedCommandBuffers := by
  unfold acquireUpdate; split <;> rfl

theorem acquireUpdate_frameIndex (o : VkOracle) (s : WindowState)
    (h : o.acquireResult ≠ VK_ERROR_OUT_OF_DATE_KHR) :
    (acquireUpdate o s).frameIndex = o.acquireIndex := by
  unfold acquireUpdate; rw [if_neg h]

/-- Every normal completion of the slot phase: the trace mentions neither
acquire nor present, and the semaphore ring and rebuild flag are untouched. -/
theorem frameRenderSlot_ok_inv (o : VkOracle) (s s1 : WindowState) (tr : List Event)
    (h : frameRenderSlot o s = Except.ok (s1, tr)) :
    Event.presented ∉ tr ∧ Event.presentAttempt ∉ tr ∧ Event.acquire ∉ tr ∧
    s1.semaphoreIndex = s.semaphoreIndex ∧ s1.semaphoreCount = s.semaphoreCount ∧
    s1.swapchainNeedRebuild = s.swapchainNeedRebuild := by
  unfold frameRenderSlot at h
  repeat' split at h
  all_goals try exact Except.noConfusion h
  all_goals rw [Except.ok.injEq, Prod.mk.injEq] at h
  all_goals obtain ⟨h1, h2⟩ := h
  all_goals subst h1
  all_goals subst h2
  all_goals refine ⟨by simp, by simp, by simp, by simp, by simp, by simp⟩

/-- Every normal completion of frameRender: no present happened during the
render phase and the semaphore ring is untouched. -/
theorem frameRender_ok_inv (o : VkOracle) (s s1 : WindowState) (tr : List Event)
    (h : frameRender o s = Except.ok (s1, tr)) :
    Event.presented ∉ tr ∧ Event.presentAttempt ∉ tr ∧
    s1.semaphoreIndex = s.semaphoreIndex ∧ s1.semaphoreCount = s.semaphoreCount := by
  unfold frameRender at h
  repeat' split at h
  all_goals try exact Except.noConfusion h
  · rw [Except.ok.injEq, Prod.mk.injEq] at h
    obtain ⟨h1, h2⟩ := h
    subst h1; subst h2
    refine ⟨by simp, by simp, by simp [acquireUpdate_semaphoreIndex],
      by simp [acquireUpdate_semaphoreCount]⟩
  · rename_i s2 tr2 heq
    rw [Except.ok.injEq, Prod.mk.injEq] at h
    obtain ⟨h1, h2⟩ := h
    subst h1; subst h2
    have hinv := frameRenderSlot_ok_inv o (acquireUpdate o s) s2 tr2 heq
    refine ⟨?_, ?_, ?_, ?_⟩
    · simp [hinv.1]
    · simp [hinv.2.1]
    · rw [hinv.2.2.2.1, acquireUpdate_semaphoreIndex]
    · rw [hinv.2.2.2.2.1, acquireUpdate_semaphoreCount]

/-- A stale acquire returns after setting the rebuild flag: no fence wait, no
reclaim, no submit. -/
theorem frameRender_stale (o : VkOracle) (s : WindowState)
    (hsem : s.semaphoreIndex < s.semaphoreCount)
    (hstale : isStale o.acquireResult = true) :
    frameRender o s =
      Except.ok ({ acquireUpdate o s with swapchainNeedRebuild := true },
        [Event.acquire]) := by
  unfold frameRender
  simp [hsem, hstale]

/-- A pending rebuild makes framePresent return immediately. -/
theorem framePresent_flagged (o : VkOracle) (s : WindowState)
    (hf : s.swapchainNeedRebuild = true) :
    framePresent o s = Except.ok (s, []) := by
  simp [framePresent, hf]

/-- Composition of the two frame phases when both complete normally. -/
theorem renderAndPresent_ok (o : VkOracle) (s s1 s2 : WindowState)
    (tr1 tr2 : List Event)
    (h1 : frameRender o s = Except.ok (s1, tr1))
    (h2 : framePresent o s1 = Except.ok (s2, tr2)) :
    renderAndPresent o s = Except.ok (s2, tr1 ++ tr2) := by
  unfold renderAndPresent
  simp only [h1, h2]

/-- C1: whenever acquire or present reports out-of-date/suboptimal, the tick
completes without aborting, no image is presented that tick, the
needs-rebuild flag is true afterward, and (being left set) it is observed at
the next tick's present phase, which skips. -/
theorem c1_staleness_never_aborts_never_presents (o o2 : VkOracle)
    (s : WindowState) (hsem : s.semaphoreIndex < s.semaphoreCount) :
    (isStale o.acquireResult = true →
      ∃ s1, renderAndPresent o s = Except.ok (s1, [Event.acquire]) ∧
        Event.presented ∉ ([Event.acquire] : List Event) ∧
        s1.swapchainNeedRebuild = true ∧
        framePresent o2 s1 = Except.ok (s1, [])) ∧
    (isStale o.presentResult = true →
      ∀ s1 tr1, frameRender o s = Except.ok (s1, tr1) →
        ∃ s2 tr2, framePresent o s1 = Except.ok (s2, tr2) ∧
          Event.presented ∉ tr1 ++ tr2 ∧
          s2.swapchainNeedRebuild = true ∧
          framePresent o2 s2 = Except.ok (s2, [])) := by
  constructor
  · intro hstale
    refine ⟨{ acquireUpdate o s with swapchainNeedRebuild := true }, ?_, by simp, rfl, ?_⟩
    · exact renderAndPresent_ok o s _ _ _ _
        (frameRender_stale o s hsem hstale)
        (framePresent_flagged o { acquireUpdate o s with swapchainNeedRebuild := true } rfl)
    · exact framePresent_flagged o2 { acquireUpdate o s with swapchainNeedRebuild := true } rfl
  · intro hps s1 tr1 hfr
    have hinv := frameRender_ok_inv o s s1 tr1 hfr
    by_cases hflag : s1.swapchainNeedRebuild = true
    · refine ⟨s1, [], framePresent_flagged o s1 hflag, ?_, hflag,
        framePresent_flagged o2 s1 hflag⟩
      simp [hinv.1]
    · have hflag' : s1.swapchainNeedRebuild = false := by
        cases hb : s1.swapchainNeedRebuild
        · rfl
        · exact absurd hb hflag
      have hsem1 : s1.semaphoreIndex < s1.semaphoreCount := by
        rw [hinv.2.2.1, hinv.2.2.2]; exact hsem
      refine ⟨{ s1 with swapchainNeedRebuild := true }, [Event.presentAttempt], ?_, ?_, rfl, ?_⟩
      · simp [framePresent, hflag', hsem1, hps]
      · simp [hinv.1]
      · exact framePresent_flagged o2 _ rfl

/-- C1 witness: a suboptimal acquire on a fresh window with a 3-slot
semaphore ring. -/
theorem c1_witness :
    ∃ s1, renderAndPresent staleAcquireOracle (windowInit 2 3)
        = Except.ok (s1, [Event.acquire]) ∧
      Event.presented ∉ ([Event.acquire] : List Event) ∧
      s1.swapchainNeedRebuild = true ∧
      framePresent zeroOracle s1 = Except.ok (s1, []) :=
  (c1_staleness_never_aborts_never_presents staleAcquireOracle zeroOracle
    (windowInit 2 3) (by decide)).1 (by decide)

theorem freeEvents_append (l1 l2 : List Event) :
    freeEvents (l1 ++ l2) = freeEvents l1 ++ freeEvents l2 := by
  simp [freeEvents, List.filterMap_append]

theorem freeEvents_map (i : Nat) (q : List Nat) :
    freeEvents (q.map (fun a => Event.freeAction i a)) = q.map (fun a => (i, a)) := by
  induction q with
  | nil => rfl
  | cons a as ih => simp only [List.map_cons, freeEvents, List.filterMap_cons] at ih ⊢; simp [ih]

theorem freeEvents_nil : freeEvents [] = [] := rfl

theorem freeEvents_cons_waitFence (i : Nat) (tr : List Event) :
    freeEvents (Event.waitFence i :: tr) = freeEvents tr := rfl

theorem freeEvents_cons_resetFence (i : Nat) (tr : List Event) :
    freeEvents (Event.resetFence i :: tr) = freeEvents tr := rfl

theorem freeEvents_cons_clearQueue (i : Nat) (tr : List Event) :
    freeEvents (Event.clearQueue i :: tr) = freeEvents tr := rfl

theorem freeEvents_cons_freeCmdBufs (i : Nat) (tr : List Event) :
    freeEvents (Event.freeCmdBufs i :: tr) = freeEvents tr := rfl

theorem freeEvents_cons_resetPool (i : Nat) (tr : List Event) :
    freeEvents (Event.resetPool i :: tr) = freeEvents tr := rfl

theorem freeEvents_cons_submitCmd (i : Nat) (tr : List Event) :
    freeEvents (Event.submitCmd i :: tr) = freeEvents tr := rfl

theorem freeEvents_cons_acquire (tr : List Event) :
    freeEvents (Event.acquire :: tr) = freeEvents tr := rfl

/-- Normal completion of the slot phase under explicit success hypotheses,
with the resulting state and trace spelled out. -/
theorem frameRenderSlot_ok (o : VkOracle) (s : WindowState) (q cb : List Nat)
    (hidx : s.frameIndex < s.imageCount)
    (hq : s.resourceFreeQueue.get? s.frameIndex = some q)
    (hcb : s.allocatedCommandBuffers.get? s.frameIndex = some cb)
    (hwf : 0 ≤ o.waitFencesResult) (hrf : 0 ≤ o.resetFencesResult)
    (hrp : 0 ≤ o.resetCommandPoolResult) (hbc : 0 ≤ o.beginCmdResult)
    (hec : 0 ≤ o.endCmdResult) (hsb : 0 ≤ o.submitResult) :
    frameRenderSlot o s = Except.ok
      ((if cb.isEmpty then
          { s with resourceFreeQueue := s.resourceFreeQueue.set s.frameIndex [] }
        else
          { s with
            resourceFreeQueue := s.resourceFreeQueue.set s.frameIndex []
            allocatedCommandBuffers := s.allocatedCommandBuffers.set s.frameIndex [] }),
        [Event.waitFence s.frameIndex, Event.resetFence s.frameIndex]
          ++ q.map (fun a => Event.freeAction s.frameIndex a)
          ++ [Event.clearQueue s.frameIndex]
          ++ (if cb.isEmpty then [] else [Event.freeCmdBufs s.frameIndex])
          ++ [Event.resetPool s.frameIndex, Event.submitCmd s.frameIndex]) := by
  unfold frameRenderSlot
  rw [hq, hcb]
  simp [hidx, Int.not_lt.mpr hwf, Int.not_lt.mpr hrf, Int.not_lt.mpr hrp,
    Int.not_lt.mpr hbc, Int.not_lt.mpr hec, Int.not_lt.mpr hsb]

/-- C4: in a tick whose acquire succeeds, the acquired slot's deferred-free
actions are executed exactly once each, in enqueue order, strictly after the
fence wait on that slot, and the slot's queue is cleared afterwards. -/
theorem c4_deferred_free_once_in_order_after_fence (o : VkOracle)
    (s : WindowState) (q cb : List Nat)
    (hsem : s.semaphoreIndex < s.semaphoreCount)
    (hstale : isStale o.acquireResult = false)
    (hacq : 0 ≤ o.acquireResult)
    (hidx : o.acquireIndex < s.imageCount)
    (hq : s.resourceFreeQueue.get? o.acquireIndex = some q)
    (hcb : s.allocatedCommandBuffers.get? o.acquireIndex = some cb)
    (hwf : 0 ≤ o.waitFencesResult) (hrf : 0 ≤ o.resetFencesResult)
    (hrp : 0 ≤ o.resetCommandPoolResult) (hbc : 0 ≤ o.beginCmdResult)
    (hec : 0 ≤ o.endCmdResult) (hsb : 0 ≤ o.submitResult) :
    ∃ s1 suf,
      frameRender o s
        = Except.ok (s1, Event.acquire :: Event.waitFence o.acquireIndex :: suf) ∧
      freeEvents suf = q.map (fun a => (o.acquireIndex, a)) ∧
      freeEvents (Event.acquire :: Event.waitFence o.acquireIndex :: suf)
        = q.map (fun a => (o.acquireIndex, a)) ∧
      s1.resourceFreeQueue.get? o.acquireIndex = some [] := by
  have hOOD : o.acquireResult ≠ VK_ERROR_OUT_OF_DATE_KHR := by
    intro hh
    simp [isStale, hh] at hstale
  have hfi : (acquireUpdate o s).frameIndex = o.acquireIndex :=
    acquireUpdate_frameIndex o s hOOD
  have hslot := frameRenderSlot_ok o (acquireUpdate o s) q cb
    (by rw [hfi, acquireUpdate_imageCount]; exact hidx)
    (by rw [hfi, acquireUpdate_resourceFreeQueue]; exact hq)
    (by rw [hfi, acquireUpdate_allocatedCommandBuffers]; exact hcb)
    hwf hrf hrp hbc hec hsb
  have hfr : frameRender o s = Except.ok
      ((if cb.isEmpty then
          { acquireUpdate o s with
            resourceFreeQueue :=
              (acquireUpdate o s).resourceFreeQueue.set (acquireUpdate o s).frameIndex [] }
        else
          { acquireUpdate o s with
            resourceFreeQueue :=
              (acquireUpdate o s).resourceFreeQueue.set (acquireUpdate o s).frameIndex []
            allocatedCommandBuffers :=
              (acquireUpdate o s).allocatedCommandBuffers.set
                (acquireUpdate o s).frameIndex [] }),
        Event.acquire ::
          ([Event.waitFence (acquireUpdate o s).frameIndex,
              Event.resetFence (acquireUpdate o s).frameIndex]
            ++ q.map (fun a => Event.freeAction (acquireUpdate o s).frameIndex a)
            ++ [Event.clearQueue (acquireUpdate o s).frameIndex]
            ++ (if cb.isEmpty then []
                else [Event.freeCmdBufs (acquireUpdate o s).frameIndex])
            ++ [Event.resetPool (acquireUpdate o s).frameIndex,
                Event.submitCmd (acquireUpdate o s).frameIndex])) := by
    unfold frameRender
    rw [if_pos hsem, hstale]
    simp only [Bool.false_eq_true, if_false, Int.not_lt.mpr hacq, hslot]
  rw [hfi] at hfr
  have hlen : o.acquireIndex < s.resourceFreeQueue.length := by
    rcases List.get?_eq_some.mp hq with ⟨hl, _⟩
    exact hl
  refine ⟨(if cb.isEmpty then
      { acquireUpdate o s with
        resourceFreeQueue :=
          (acquireUpdate o s).resourceFreeQueue.set o.acquireIndex [] }
    else
      { acquireUpdate o s with
        resourceFreeQueue :=
          (acquireUpdate o s).resourceFreeQueue.set o.acquireIndex []
        allocatedCommandBuffers :=
          (acquireUpdate o s).allocatedCommandBuffers.set o.acquireIndex [] }),
    Event.resetFence o.acquireIndex ::
      (((q.map (fun a => Event.freeAction o.acquireIndex a)
          ++ [Event.clearQueue o.acquireIndex])
        ++ (if cb.isEmpty then [] else [Event.freeCmdBufs o.acquireIndex]))
        ++ [Event.resetPool o.acquireIndex, Event.submitCmd o.acquireIndex]), ?_, ?_, ?_, ?_⟩
  · exact hfr
  · cases hcbe : cb.isEmpty <;>
      simp [hcbe, freeEvents_append, freeEvents_map, freeEvents_nil,
        freeEvents_cons_acquire, freeEvents_cons_waitFence,
        freeEvents_cons_resetFence, freeEvents_cons_clearQueue,
        freeEvents_cons_freeCmdBufs, freeEvents_cons_resetPool,
        freeEvents_cons_submitCmd]
  · cases hcbe : cb.isEmpty <;>
      simp [hcbe, freeEvents_append, freeEvents_map, freeEvents_nil,
        freeEvents_cons_acquire, freeEvents_cons_waitFence,
        freeEvents_cons_resetFence, freeEvents_cons_clearQueue,
        freeEvents_cons_freeCmdBufs, freeEvents_cons_resetPool,
        freeEvents_cons_submitCmd]
  · cases hcbe : cb.isEmpty <;>
      simp [hcbe, acquireUpdate_resourceFreeQueue, List.get?_eq_getElem?,
        List.getElem?_set, hlen]

/-- C4 witness: slot 0 of a fresh window holding two queued deferred frees. -/
theorem c4_witness :
    ∃ s1 suf,
      frameRender zeroOracle c4State
        = Except.ok (s1,
            Event.acquire :: Event.waitFence zeroOracle.acquireIndex :: suf) ∧
      freeEvents suf = [10, 11].map (fun a => (zeroOracle.acquireIndex, a)) ∧
      freeEvents (Event.acquire :: Event.waitFence zeroOracle.acquireIndex :: suf)
        = [10, 11].map (fun a => (zeroOracle.acquireIndex, a)) ∧
      s1.resourceFreeQueue.get? zeroOracle.acquireIndex = some [] :=
  c4_deferred_free_once_in_order_after_fence zeroOracle c4State [10, 11] []
    (by decide) (by decide) (by decide) (by decide) (by decide) (by decide)
    (by decide) (by decide) (by decide) (by decide) (by decide) (by decide)

/-- C5: a tick whose GUI draw data reports a degenerate display size (zero
width or zero height) performs no acquire, no submit, and no present, and
sleeps instead; the window state is untouched. -/
theorem c5_degenerate_size_skips_gpu_work (cur : Option Nat)
    (imguiContext dispW dispH : Nat) (o : VkOracle) (s : WindowState)
    (hdeg : dispW = 0 ∨ dispH = 0) :
    ∃ cOut tr, render cur imguiContext dispW dispH o s = Except.ok (cOut, s, tr) ∧
      tr = [Event.sleepTick] ∧
      Event.acquire ∉ tr ∧ Event.presentAttempt ∉ tr ∧ Event.presented ∉ tr ∧
      (∀ i, Event.submitCmd i ∉ tr) ∧ Event.sleepTick ∈ tr := by
  have hcond : ¬ (0 < dispW ∧ 0 < dispH) := by
    rcases hdeg with h | h <;> omega
  refine ⟨(match cur with | some c => some c | none => some imguiContext),
    [Event.sleepTick], ?_, rfl, by simp, by simp, by simp, fun i => by simp, by simp⟩
  unfold render
  simp only [hcond, if_false]

/-- C5 witness: a zero-by-zero draw surface with no prior GUI context. -/
theorem c5_witness :
    ∃ cOut tr, render none 5 0 0 zeroOracle (windowInit 2 3)
        = Except.ok (cOut, windowInit 2 3, tr) ∧
      tr = [Event.sleepTick] ∧
      Event.acquire ∉ tr ∧ Event.presentAttempt ∉ tr ∧ Event.presented ∉ tr ∧
      (∀ i, Event.submitCmd i ∉ tr) ∧ Event.sleepTick ∈ tr :=
  c5_degenerate_size_skips_gpu_work none 5 0 0 zeroOracle (windowInit 2 3)
    (Or.inl rfl)

/-- C6: framePresent leaves the semaphore index unchanged when a rebuild is
pending on entry (and then issues no present at all) and when the present
call reports staleness; on a successful present it advances the index by
exactly 1 modulo the semaphore count. -/
theorem c6_semaphore_index_advance (o : VkOracle) (s : WindowState)
    (hsem : s.semaphoreIndex < s.semaphoreCount) :
    (s.swapchainNeedRebuild = true → framePresent o s = Except.ok (s, [])) ∧
    (s.swapchainNeedRebuild = false → isStale o.presentResult = true →
      framePresent o s
        = Except.ok ({ s with swapchainNeedRebuild := true }, [Event.presentAttempt]) ∧
      ({ s with swapchainNeedRebuild := true } : WindowState).semaphoreIndex
        = s.semaphoreIndex) ∧
    (s.swapchainNeedRebuild = false → isStale o.presentResult = false →
      0 ≤ o.presentResult →
      framePresent o s
        = Except.ok
            ({ s with semaphoreIndex := (s.semaphoreIndex + 1) % s.semaphoreCount },
              [Event.presentAttempt, Event.presented])) := by
  refine ⟨fun hf => framePresent_flagged o s hf, fun hf hstale => ⟨?_, rfl⟩,
    fun hf hstale hge => ?_⟩
  · simp [framePresent, hf, hsem, hstale]
  · simp [framePresent, hf, hsem, hstale, Int.not_lt.mpr hge]

/-- C6 witness: a successful present on a fresh window advances the
semaphore index from 0 to 1 mod 3. -/
theorem c6_witness :
    (windowInit 2 3).semaphoreIndex < (windowInit 2 3).semaphoreCount ∧
    framePresent zeroOracle (windowInit 2 3)
      = Except.ok
          ({ windowInit 2 3 with
              semaphoreIndex :=
                ((windowInit 2 3).semaphoreIndex + 1) % (windowInit 2 3).semaphoreCount },
            [Event.presentAttempt, Event.presented]) :=
  ⟨by decide, (c6_semaphore_index_advance zeroOracle (windowInit 2 3)
    (by decide)).2.2 rfl (by decide) (by decide)⟩

/-- C8 counterexample: when NO GUI context is current before the call,
`render` leaves the window's own context current afterwards (the restore is
guarded by `if (backupContext)`), refuting the claim for that case. -/
theorem c8_counterexample :
    render none 5 0 0 zeroOracle (windowInit 2 3)
      = Except.ok (some 5, windowInit 2 3, [Event.sleepTick]) ∧
    (some 5 : Option Nat) ≠ none :=
  ⟨rfl, by decide⟩

/-- C8 (amended): whenever some GUI context was current before the call, that
context is current again when `render` returns normally; only the
no-context-current case is left unrestored. -/
theorem c8_context_restored_when_present (c imguiContext dispW dispH : Nat)
    (o : VkOracle) (s : WindowState) (res : Option Nat × WindowState × List Event)
    (h : render (some c) imguiContext dispW dispH o s = Except.ok res) :
    res.1 = some c := by
  unfold render at h
  repeat' split at h
  all_goals try exact Except.noConfusion h
  all_goals rw [Except.ok.injEq] at h
  all_goals subst h
  all_goals rename_i hsome
  all_goals cases hsome
  all_goals rfl

/-- C8 witness: the previously-current context 3 is restored after rendering
a window whose own context is 5. -/
theorem c8_witness :
    ((some 3 : Option Nat), windowInit 2 3, [Event.sleepTick]).1 = some 3 :=
  c8_context_restored_when_present 3 5 0 0 zeroOracle (windowInit 2 3) _ rfl

end Prism
